import Mathlib

/-!
Verification of the QEMU-detection library (`runs_inside_qemu`).

The source is a single `no_std` Rust crate with one public function
`runs_inside_qemu() -> QemuCertainty` that inspects CPUID evidence
(the hypervisor-info leaf and the processor brand string, both obtained
through the `raw_cpuid` crate) and returns a three-level certainty verdict.

The embedding below mirrors the source: the CPUID evidence available to the
function is captured as a record of the two optional query results, and the
decision procedure is translated branch by branch.  A second translation
(`runs_inside_qemu_checked`) models the two `Option::unwrap` calls as
fallible steps in `Except`, and a third (`runs_inside_qemu_logged`) also
collects the `log::debug!` emissions, to reason about panics and logging.
-/

/-- Models the `raw_cpuid::Hypervisor` enum: the identity reported by the
hypervisor-info CPUID leaf.  `Unknown` carries the three raw register values
(u32 in the source, modelled as `Nat`). -/
inductive Hypervisor where
  | Xen
  | VMware
  | HyperV
  | KVM
  | QEMU
  | Bhyve
  | QNX
  | ACRN
  | Unknown (ebx ecx edx : Nat)
  deriving DecidableEq, Repr

/-- Models `raw_cpuid::HypervisorInfo`: the data read from the
hypervisor-information leaf, from which `identify()` extracts the
hypervisor identity. -/
structure HypervisorInfo where
  identify : Hypervisor
  deriving DecidableEq, Repr

/-- Models the `raw_cpuid::CpuId` evidence as seen by `runs_inside_qemu`:
the two optional query results it consults.  `get_hypervisor_info` is `none`
exactly when the hypervisor flag is not set in the CPUID features or the
hypervisor-info leaf is unreadable; `get_processor_brand_string` is `none`
when the extended brand-string leaves are unsupported. -/
structure CpuId where
  get_hypervisor_info : Option HypervisorInfo
  get_processor_brand_string : Option String
  deriving DecidableEq, Repr

/-- Models the `QemuCertainty` enum of the source: the three-level verdict
returned by `runs_inside_qemu`. -/
inductive QemuCertainty where
  | DefinitelyNot
  | Maybe
  | VeryLikely
  deriving DecidableEq, Repr, BEq

/-- Models `QemuCertainty::is_definitely_not`: `self == Self::DefinitelyNot`. -/
def QemuCertainty.is_definitely_not (self : QemuCertainty) : Bool :=
  self == QemuCertainty.DefinitelyNot

/-- Models `QemuCertainty::is_very_likely`: `self == Self::VeryLikely`. -/
def QemuCertainty.is_very_likely (self : QemuCertainty) : Bool :=
  self == QemuCertainty.VeryLikely

/-- Models `QemuCertainty::is_maybe_or_very_likely`:
`self == Self::Maybe || self == Self::VeryLikely`. -/
def QemuCertainty.is_maybe_or_very_likely (self : QemuCertainty) : Bool :=
  self == QemuCertainty.Maybe || self == QemuCertainty.VeryLikely

/-- Substring test on character lists: `true` iff `pat` occurs contiguously
inside the second list.  Used to model `str::contains` from Rust. -/
def listContains (pat : List Char) : List Char → Bool
  | [] => pat.isEmpty
  | c :: rest => pat.isPrefixOf (c :: rest) || listContains pat rest

/-- Models Rust `s.contains(pat)` for string patterns: substring search. -/
def strContains (s pat : String) : Bool :=
  listContains pat.toList s.toList

/-- Models `runs_inside_qemu` from `src/lib.rs` (the total result; the
source returns early in each branch):
CHECK 1 reads the hypervisor info, returning `DefinitelyNot` when absent and
`VeryLikely` when the identity is `Hypervisor::QEMU`; CHECK 2 reads the
processor brand string, returning `Maybe` when absent, `VeryLikely` when it
contains `"QEMU"`, and `Maybe` otherwise. -/
def runs_inside_qemu (id : CpuId) : QemuCertainty :=
  match id.get_hypervisor_info with
  | none =>
      QemuCertainty.DefinitelyNot
  | some hypervisor_info =>
      if hypervisor_info.identify = Hypervisor.QEMU then
        QemuCertainty.VeryLikely
      else
        match id.get_processor_brand_string with
        | none =>
            QemuCertainty.Maybe
        | some brand_string =>
            let cpu_brand_string_contains_qemu := strContains brand_string "QEMU"
            if cpu_brand_string_contains_qemu then
              QemuCertainty.VeryLikely
            else
              QemuCertainty.Maybe

/-- Models `Option::unwrap`: a panic on `None` becomes an `Except.error`
carrying the Rust panic message. -/
def unwrapE {α : Type} : Option α → Except String α
  | none => Except.error "called Option::unwrap on a None value"
  | some a => Except.ok a

/-- Faithful step-by-step translation of `runs_inside_qemu` in which the two
`unwrap` calls are modelled by `unwrapE`, so that a reachable panic would
surface as `Except.error`. -/
def runs_inside_qemu_checked (id : CpuId) : Except String QemuCertainty :=
  let hypervisor_info := id.get_hypervisor_info
  if hypervisor_info.isNone then
    Except.ok QemuCertainty.DefinitelyNot
  else
    match unwrapE hypervisor_info with
    | Except.error e => Except.error e
    | Except.ok hypervisor_info =>
        if hypervisor_info.identify = Hypervisor.QEMU then
          Except.ok QemuCertainty.VeryLikely
        else
          let brand_string := id.get_processor_brand_string
          if brand_string.isNone then
            Except.ok QemuCertainty.Maybe
          else
            match unwrapE brand_string with
            | Except.error e => Except.error e
            | Except.ok brand_string =>
                if strContains brand_string "QEMU" then
                  Except.ok QemuCertainty.VeryLikely
                else
                  Except.ok QemuCertainty.Maybe

/-- Models the five `log::debug!` call sites of `runs_inside_qemu`, one
constructor per message; the two interpolated messages carry the
`hypervisor_info.identify()` value they print. -/
inductive LogEvent where
  | definitelyNotNoHypervisorInfo
  | veryLikelyDirectHypervisor
  | maybeNoBrandString
  | veryLikelyWithAccelerator (accelerator : Hypervisor)
  | maybeBrandStringNotQemu (hypervisor : Hypervisor)
  deriving DecidableEq, Repr

/-- Translation of `runs_inside_qemu` that also collects the `log::debug!`
emissions of the branch taken, pairing the returned certainty with the log. -/
def runs_inside_qemu_logged (id : CpuId) : QemuCertainty × List LogEvent :=
  match id.get_hypervisor_info with
  | none =>
      (QemuCertainty.DefinitelyNot, [LogEvent.definitelyNotNoHypervisorInfo])
  | some hypervisor_info =>
      if hypervisor_info.identify = Hypervisor.QEMU then
        (QemuCertainty.VeryLikely, [LogEvent.veryLikelyDirectHypervisor])
      else
        match id.get_processor_brand_string with
        | none =>
            (QemuCertainty.Maybe, [LogEvent.maybeNoBrandString])
        | some brand_string =>
            if strContains brand_string "QEMU" then
              (QemuCertainty.VeryLikely,
                [LogEvent.veryLikelyWithAccelerator hypervisor_info.identify])
            else
              (QemuCertainty.Maybe,
                [LogEvent.maybeBrandStringNotQemu hypervisor_info.identify])

/-- Models the target architectures a build can be configured for. -/
inductive TargetArch where
  | x86
  | x86_64
  | other (name : String)
  deriving DecidableEq, Repr

/-- Models the conditional-compilation guard of the crate:
`#[cfg(not(any(target_arch = "x86", target_arch = "x86_64")))]` followed by
`compile_error!("This crate only works on the x86/x86_64-platform.")`.
Building for x86 or x86_64 succeeds; any other target is rejected at build
time with the explicit message. -/
def compile_check : TargetArch → Except String Unit
  | TargetArch.x86 => Except.ok ()
  | TargetArch.x86_64 => Except.ok ()
  | TargetArch.other _ =>
      Except.error "This crate only works on the x86/x86_64-platform."
/-- C1: if the hypervisor-info query returns nothing (hypervisor flag clear
or feature leaf unreadable), `runs_inside_qemu` returns `DefinitelyNot`,
regardless of the brand-string contents. -/
theorem runs_inside_qemu_no_hypervisor_definitely_not (id : CpuId)
    (h : id.get_hypervisor_info = none) :
    runs_inside_qemu id = QemuCertainty.DefinitelyNot := by
  simp [runs_inside_qemu, h]

/-- Witness for C1 at a concrete input whose brand string even contains
"QEMU": absence of hypervisor info alone forces `DefinitelyNot`. -/
theorem runs_inside_qemu_no_hypervisor_definitely_not_witness :
    CpuId.get_hypervisor_info ⟨none, some "QEMU Virtual CPU version 2.5+"⟩ = none ∧
    runs_inside_qemu ⟨none, some "QEMU Virtual CPU version 2.5+"⟩ =
      QemuCertainty.DefinitelyNot :=
  ⟨rfl, runs_inside_qemu_no_hypervisor_definitely_not
    ⟨none, some "QEMU Virtual CPU version 2.5+"⟩ rfl⟩

/-- C2: if hypervisor info is present and identifies QEMU directly,
`runs_inside_qemu` returns `VeryLikely`, regardless of the brand string. -/
theorem runs_inside_qemu_direct_qemu_very_likely (id : CpuId)
    (info : HypervisorInfo)
    (h : id.get_hypervisor_info = some info)
    (hq : info.identify = Hypervisor.QEMU) :
    runs_inside_qemu id = QemuCertainty.VeryLikely := by
  simp [runs_inside_qemu, h, hq]

/-- Witness for C2 at a concrete input with the brand string absent: the
direct QEMU identity alone forces `VeryLikely`. -/
theorem runs_inside_qemu_direct_qemu_very_likely_witness :
    CpuId.get_hypervisor_info ⟨some ⟨Hypervisor.QEMU⟩, none⟩ =
      some ⟨Hypervisor.QEMU⟩ ∧
    runs_inside_qemu ⟨some ⟨Hypervisor.QEMU⟩, none⟩ = QemuCertainty.VeryLikely :=
  ⟨rfl, runs_inside_qemu_direct_qemu_very_likely
    ⟨some ⟨Hypervisor.QEMU⟩, none⟩ ⟨Hypervisor.QEMU⟩ rfl rfl⟩

/-- C3: hypervisor present, identity not QEMU, brand string present and
containing "QEMU" as a substring: `runs_inside_qemu` returns `VeryLikely`. -/
theorem runs_inside_qemu_brand_qemu_very_likely (id : CpuId)
    (info : HypervisorInfo) (brand : String)
    (h : id.get_hypervisor_info = some info)
    (hnq : info.identify ≠ Hypervisor.QEMU)
    (hb : id.get_processor_brand_string = some brand)
    (hc : strContains brand "QEMU" = true) :
    runs_inside_qemu id = QemuCertainty.VeryLikely := by
  simp [runs_inside_qemu, h, hnq, hb, hc]

/-- Witness for C3: KVM as hypervisor with the QEMU virtual-CPU brand
string yields `VeryLikely`. -/
theorem runs_inside_qemu_brand_qemu_very_likely_witness :
    strContains "QEMU Virtual CPU version 2.5+" "QEMU" = true ∧
    runs_inside_qemu ⟨some ⟨Hypervisor.KVM⟩, some "QEMU Virtual CPU version 2.5+"⟩ =
      QemuCertainty.VeryLikely :=
  ⟨by decide, runs_inside_qemu_brand_qemu_very_likely
    ⟨some ⟨Hypervisor.KVM⟩, some "QEMU Virtual CPU version 2.5+"⟩
    ⟨Hypervisor.KVM⟩ "QEMU Virtual CPU version 2.5+" rfl (by decide) rfl (by decide)⟩

/-- C4: hypervisor present, identity not QEMU, brand string present but not
containing "QEMU": `runs_inside_qemu` returns `Maybe`. -/
theorem runs_inside_qemu_brand_other_maybe (id : CpuId)
    (info : HypervisorInfo) (brand : String)
    (h : id.get_hypervisor_info = some info)
    (hnq : info.identify ≠ Hypervisor.QEMU)
    (hb : id.get_processor_brand_string = some brand)
    (hc : strContains brand "QEMU" = false) :
    runs_inside_qemu id = QemuCertainty.Maybe := by
  simp [runs_inside_qemu, h, hnq, hb, hc]

/-- Witness for C4: Hyper-V with a physical-CPU brand string yields
`Maybe`. -/
theorem runs_inside_qemu_brand_other_maybe_witness :
    strContains "Intel(R) Xeon(R) CPU E5-2690" "QEMU" = false ∧
    runs_inside_qemu ⟨some ⟨Hypervisor.HyperV⟩, some "Intel(R) Xeon(R) CPU E5-2690"⟩ =
      QemuCertainty.Maybe :=
  ⟨by decide, runs_inside_qemu_brand_other_maybe
    ⟨some ⟨Hypervisor.HyperV⟩, some "Intel(R) Xeon(R) CPU E5-2690"⟩
    ⟨Hypervisor.HyperV⟩ "Intel(R) Xeon(R) CPU E5-2690" rfl (by decide) rfl (by decide)⟩

/-- C5: hypervisor present, identity not QEMU (including an unknown or
unreadable identity), brand string absent: `runs_inside_qemu` returns
`Maybe`. -/
theorem runs_inside_qemu_no_brand_maybe (id : CpuId)
    (info : HypervisorInfo)
    (h : id.get_hypervisor_info = some info)
    (hnq : info.identify ≠ Hypervisor.QEMU)
    (hb : id.get_processor_brand_string = none) :
    runs_inside_qemu id = QemuCertainty.Maybe := by
  simp [runs_inside_qemu, h, hnq, hb]

/-- Witness for C5: an unknown hypervisor identity with no brand string
yields `Maybe`. -/
theorem runs_inside_qemu_no_brand_maybe_witness :
    Hypervisor.Unknown 0 0 0 ≠ Hypervisor.QEMU ∧
    runs_inside_qemu ⟨some ⟨Hypervisor.Unknown 0 0 0⟩, none⟩ = QemuCertainty.Maybe :=
  ⟨by decide, runs_inside_qemu_no_brand_maybe
    ⟨some ⟨Hypervisor.Unknown 0 0 0⟩, none⟩ ⟨Hypervisor.Unknown 0 0 0⟩
    rfl (by decide) rfl⟩

/-- C6 counterexample: the three predicates do NOT partition the variants
with no overlap: at `VeryLikely` both `is_very_likely` and
`is_maybe_or_very_likely` hold. -/
theorem qemu_certainty_predicates_overlap :
    QemuCertainty.is_very_likely QemuCertainty.VeryLikely = true ∧
    QemuCertainty.is_maybe_or_very_likely QemuCertainty.VeryLikely = true := by
  decide

/-- C6 amended: each predicate holds exactly of the variants the spec names,
and `is_definitely_not` and `is_maybe_or_very_likely` are complementary
(those two partition the variants); `is_very_likely` is however contained in
`is_maybe_or_very_likely`, so the three predicates together do not form a
partition. -/
theorem qemu_certainty_predicates_spec (c : QemuCertainty) :
    (c.is_definitely_not = true ↔ c = QemuCertainty.DefinitelyNot) ∧
    (c.is_very_likely = true ↔ c = QemuCertainty.VeryLikely) ∧
    (c.is_maybe_or_very_likely = true ↔
      (c = QemuCertainty.Maybe ∨ c = QemuCertainty.VeryLikely)) ∧
    (c.is_definitely_not = true ↔ c.is_maybe_or_very_likely = false) := by
  cases c <;> decide

/-- C7: `runs_inside_qemu` returns `DefinitelyNot` exactly when the
hypervisor-info query returned nothing, and its result satisfies
`is_maybe_or_very_likely` exactly when a hypervisor was reported present. -/
theorem runs_inside_qemu_definitely_not_iff_no_hypervisor (id : CpuId) :
    (runs_inside_qemu id = QemuCertainty.DefinitelyNot ↔
      id.get_hypervisor_info = none) ∧
    ((runs_inside_qemu id).is_maybe_or_very_likely = true ↔
      id.get_hypervisor_info.isSome = true) := by
  obtain ⟨hv, bs⟩ := id
  cases hv with
  | none =>
    simp [runs_inside_qemu, QemuCertainty.is_maybe_or_very_likely]
    all_goals decide
  | some info =>
    by_cases hq : info.identify = Hypervisor.QEMU
    · simp [runs_inside_qemu, hq, QemuCertainty.is_maybe_or_very_likely]
      all_goals decide
    · cases bs with
      | none =>
        simp [runs_inside_qemu, hq, QemuCertainty.is_maybe_or_very_likely]
        all_goals decide
      | some b =>
        by_cases hc : strContains b "QEMU" = true
        · simp [runs_inside_qemu, hq, hc, QemuCertainty.is_maybe_or_very_likely]
          all_goals decide
        · simp [runs_inside_qemu, hq, hc, QemuCertainty.is_maybe_or_very_likely]
          all_goals decide

/-- C8: the translation in which the two `unwrap` calls are fallible always
returns `Except.ok` of the total result: the unwraps are unreachable in
their failing branch, so the function is total and panic-free. -/
theorem runs_inside_qemu_never_panics (id : CpuId) :
    runs_inside_qemu_checked id = Except.ok (runs_inside_qemu id) := by
  obtain ⟨hv, bs⟩ := id
  cases hv with
  | none => rfl
  | some info =>
    by_cases hq : info.identify = Hypervisor.QEMU
    · simp [runs_inside_qemu, runs_inside_qemu_checked, unwrapE, hq]
    · cases bs with
      | none => simp [runs_inside_qemu, runs_inside_qemu_checked, unwrapE, hq]
      | some b =>
        by_cases hc : strContains b "QEMU" = true
        · simp [runs_inside_qemu, runs_inside_qemu_checked, unwrapE, hq, hc]
        · simp [runs_inside_qemu, runs_inside_qemu_checked, unwrapE, hq, hc]

/-- C9: the classifier is a deterministic function of the evidence alone
(equal evidence gives equal verdicts), and the logging-instrumented
translation returns exactly the same certainty as the pure one: the
diagnostic log never influences the returned result. -/
theorem runs_inside_qemu_deterministic_log_free (a b : CpuId) (hab : a = b) :
    runs_inside_qemu a = runs_inside_qemu b ∧
    (runs_inside_qemu_logged a).fst = runs_inside_qemu a := by
  subst hab
  refine ⟨rfl, ?_⟩
  obtain ⟨hv, bs⟩ := a
  cases hv with
  | none => rfl
  | some info =>
    by_cases hq : info.identify = Hypervisor.QEMU
    · simp [runs_inside_qemu, runs_inside_qemu_logged, hq]
    · cases bs with
      | none => simp [runs_inside_qemu, runs_inside_qemu_logged, hq]
      | some b =>
        by_cases hc : strContains b "QEMU" = true
        · simp [runs_inside_qemu, runs_inside_qemu_logged, hq, hc]
        · simp [runs_inside_qemu, runs_inside_qemu_logged, hq, hc]

/-- Witness for C9 at a concrete input. -/
theorem runs_inside_qemu_deterministic_log_free_witness :
    runs_inside_qemu ⟨some ⟨Hypervisor.KVM⟩, none⟩ =
      runs_inside_qemu ⟨some ⟨Hypervisor.KVM⟩, none⟩ ∧
    (runs_inside_qemu_logged ⟨some ⟨Hypervisor.KVM⟩, none⟩).fst =
      runs_inside_qemu ⟨some ⟨Hypervisor.KVM⟩, none⟩ :=
  runs_inside_qemu_deterministic_log_free
    ⟨some ⟨Hypervisor.KVM⟩, none⟩ ⟨some ⟨Hypervisor.KVM⟩, none⟩ rfl

/-- C10: building for any architecture other than x86/x86_64 fails at build
time with the explicit, descriptive error of the source. -/
theorem compile_check_rejects_other_arch (a : TargetArch)
    (h1 : a ≠ TargetArch.x86) (h2 : a ≠ TargetArch.x86_64) :
    compile_check a =
      Except.error "This crate only works on the x86/x86_64-platform." := by
  cases a with
  | x86 => exact absurd rfl h1
  | x86_64 => exact absurd rfl h2
  | other n => rfl

/-- Witness for C10 at a concrete non-x86 architecture. -/
theorem compile_check_rejects_other_arch_witness :
    TargetArch.other "aarch64" ≠ TargetArch.x86 ∧
    TargetArch.other "aarch64" ≠ TargetArch.x86_64 ∧
    compile_check (TargetArch.other "aarch64") =
      Except.error "This crate only works on the x86/x86_64-platform." :=
  ⟨by decide, by decide,
    compile_check_rejects_other_arch (TargetArch.other "aarch64")
      (by decide) (by decide)⟩
